import Mathlib

/-
  Shallow embedding of the service-bus client library (src/):
  core/mod.rs (generate_sas), core/error.rs (AzureRequestError),
  servicebus/mod.rs (interpret_results), servicebus/queue.rs (QueueClient),
  servicebus/subscription.rs (SubscriptionClient).

  Rust strings are modelled as lists of UTF-8 bytes (List Nat), so that
  byte-index slicing and its char-boundary panics are representable.
  A function that can panic returns Option, with none modelling the panic.
  External crates (crypto/base64 HMAC, hyper URI assembly, the clock) are
  parameters of the embedding: mac stands for base64(hmac_sha256(key, msg))
  and now for the current unix time in seconds.
-/

deriving instance DecidableEq for Except

namespace ServiceBus

/-- UTF-8 encoding of a single character as a list of byte values. -/
def utf8Bytes (c : Char) : List Nat :=
  let n := c.toNat
  if n < 128 then [n]
  else if n < 2048 then [192 + n / 64, 128 + n % 64]
  else if n < 65536 then [224 + n / 4096, 128 + n / 64 % 64, 128 + n % 64]
  else [240 + n / 262144, 128 + n / 4096 % 64, 128 + n / 64 % 64, 128 + n % 64]

/-- The UTF-8 byte sequence of a Lean string, modelling a Rust str. -/
def strBytes (s : String) : List Nat := (s.data.map utf8Bytes).flatten

/-- ASCII whitespace bytes (the model of str::trim is restricted to ASCII
whitespace; no claim involves non-ASCII whitespace). -/
def isWsByte (b : Nat) : Bool := if b = 32 ∨ (9 ≤ b ∧ b ≤ 13) then true else false

/-- Model of str::trim over bytes. -/
def trimBytes (bs : List Nat) : List Nat :=
  ((bs.dropWhile isWsByte).reverse.dropWhile isWsByte).reverse

/-- Model of str::split on a one-byte separator: Rust yields [""]
on the empty string and keeps empty segments. -/
def splitOnByte (b : Nat) : List Nat → List (List Nat)
  | [] => [[]]
  | c :: rest =>
    if c = b then [] :: splitOnByte b rest
    else
      match splitOnByte b rest with
      | [] => [[c]]
      | h :: t => (c :: h) :: t

/-- Model of str::find for a one-byte pattern: byte index of first occurrence. -/
def findByteIdx (b : Nat) : List Nat → Option Nat
  | [] => none
  | c :: rest => if c = b then some 0 else (findByteIdx b rest).map (· + 1)

/-- A UTF-8 continuation byte (0x80..=0xBF); byte index 1 of a str is a char
boundary exactly when its byte 1 is not a continuation byte. -/
def isUtf8Cont (b : Nat) : Bool := if 128 ≤ b ∧ b ≤ 191 then true else false

/-- Model of &v[1..] on a nonempty str: none models the Rust panic when byte
index 1 falls inside a multi-byte character. -/
def sliceFrom1 : List Nat → Option (List Nat)
  | [] => some []
  | [_] => some []
  | _ :: b :: rest => if isUtf8Cont b then none else some (b :: rest)

/-- The `if value.len() > 0 { value = &value[1..] }` step shared by all three
connection-string loops (core/mod.rs:51, queue.rs:59, subscription.rs:53). -/
def cutEqSign (v : List Nat) : Option (List Nat) :=
  if v.length > 0 then sliceFrom1 v else some v

/-- One iteration of the connection-string loop (core/mod.rs:46-53):
idx = find("=").unwrap_or(0); (k, value) = split_at(idx); trim both;
cut the leading byte of value when nonempty. none models the panic. -/
def procSegment (seg : List Nat) : Option (List Nat × List Nat) :=
  let idx := (findByteIdx 61 seg).getD 0
  let k := trimBytes (seg.take idx)
  let v := trimBytes (seg.drop idx)
  (cutEqSign v).map (fun v2 => (k, v2))

/-- All iterations of the loop, in order; none as soon as one panics. -/
def procSegments : List (List Nat) → Option (List (List Nat × List Nat))
  | [] => some []
  | seg :: rest =>
    match procSegment seg, procSegments rest with
    | some kv, some kvs => some (kv :: kvs)
    | _, _ => none

/-- The key-value pairs seen by the loops over connection_string.split(";"). -/
def parseSegments (conn : List Nat) : Option (List (List Nat × List Nat)) :=
  procSegments (splitOnByte 59 conn)

/-- The three mutable locals of generate_sas (core/mod.rs:40-42), each
initialized to the empty string. -/
structure ConnFields where
  endpoint : List Nat := []
  key : List Nat := []
  name : List Nat := []
deriving DecidableEq, Repr

/-- The match in the generate_sas loop body (core/mod.rs:54-59). -/
def applySegment (f : ConnFields) (kv : List Nat × List Nat) : ConnFields :=
  if kv.1 = strBytes "Endpoint" then { f with endpoint := kv.2 }
  else if kv.1 = strBytes "SharedAccessKey" then { f with key := kv.2 }
  else if kv.1 = strBytes "SharedAccessKeyName" then { f with name := kv.2 }
  else f

/-- The whole parsing loop of generate_sas (core/mod.rs:44-60). -/
def parseConnFields (conn : List Nat) : Option ConnFields :=
  (parseSegments conn).map (fun kvs => kvs.foldl applySegment {})

/-- Upper-case hex digit byte for a value below 16 (percent_encoding crate). -/
def hexDigitByte (n : Nat) : Nat := if n < 10 then 48 + n else 55 + n

/-- USERINFO_ENCODE_SET (core/mod.rs:11-30): CONTROLS (0x00-0x1F, 0x7F) plus
space " # < > backtick ? open-brace close-brace / : ; = @ backslash [ ] ^ |.
utf8_percent_encode additionally always encodes every non-ASCII byte. -/
def userinfoSet (b : Nat) : Bool :=
  if 128 ≤ b ∨ b < 32 ∨ b = 127 ∨
     b ∈ [32, 34, 35, 60, 62, 96, 63, 123, 125, 47, 58, 59, 61, 64, 92, 91, 93, 94, 124]
  then true else false

/-- CUSTOM_ENCODE_SET (core/mod.rs:32-33): CONTROLS plus + = /
(plus every non-ASCII byte, as above). -/
def customSet (b : Nat) : Bool :=
  if 128 ≤ b ∨ b < 32 ∨ b = 127 ∨ b = 43 ∨ b = 61 ∨ b = 47 then true else false

/-- Percent-encode one byte: %XX when in the set, else the byte itself. -/
def percentEncodeByte (inSet : Nat → Bool) (b : Nat) : List Nat :=
  if inSet b then [37, hexDigitByte (b / 16), hexDigitByte (b % 16)] else [b]

/-- Model of utf8_percent_encode(...).collect::<String>(). -/
def percentEncode (inSet : Nat → Bool) (bs : List Nat) : List Nat :=
  (bs.map (percentEncodeByte inSet)).flatten

/-- ASCII decimal digits of a natural number, for format! of the expiry. -/
def natBytes (n : Nat) : List Nat := (Nat.toDigits 10 n).map Char.toNat

/-- ASCII decimal rendering of an integer, for SequenceNumber.to_string(). -/
def intBytes (i : Int) : List Nat := strBytes (toString i)

/-- generate_sas (core/mod.rs:39-82). mac models the external crypto stack
base64::encode(hmac_sha256(key, message)) as ASCII bytes; now is the clock in
unix seconds (pre-epoch clamping by unwrap_or(0) cannot fire over Nat);
dur the duration in seconds. none models a panic of the parsing loop. -/
def generate_sas (mac : List Nat → List Nat → List Nat) (conn : List Nat)
    (now dur : Nat) : Option (List Nat × Nat) :=
  match parseConnFields conn with
  | none => none
  | some f =>
    let encodedUrl := percentEncode userinfoSet f.endpoint
    let expiry := now + dur
    let message := encodedUrl ++ [10] ++ natBytes expiry
    let sig := percentEncode customSet (mac f.key message)
    some (strBytes "SharedAccessSignature sig=" ++ sig ++
          strBytes "&se=" ++ natBytes expiry ++
          strBytes "&skn=" ++ f.name ++
          strBytes "&sr=" ++ encodedUrl, expiry)

/-- AzureRequestError (core/error.rs:7-18). UnknownError carries an eyre
Report built from the debug form of the status code; it is modelled as the
code itself. HyperError carries an external hyper::Error, modelled without
payload; neither payload is inspected anywhere in src/. -/
inductive AzureRequestError where
  | BadRequest
  | AuthorizationFailure
  | ResourceFailure
  | ResourceNotFound
  | InternalError
  | UnknownError (code : Nat)
  | HyperError
  | LocalMessage
  | EmptyBus
  | NonSerializedBody
deriving DecidableEq, Repr

/-- interpret_results (servicebus/mod.rs:11-24), match arms in source order;
hyper StatusCode constants replaced by their numeric values. -/
def interpret_results (status : Nat) : Except AzureRequestError Unit :=
  if status = 401 then .error .AuthorizationFailure
  else if status = 500 then .error .InternalError
  else if status = 400 then .error .BadRequest
  else if status = 403 then .error .ResourceFailure
  else if status = 410 then .error .ResourceNotFound
  else if status = 201 then .ok ()
  else if status = 200 then .ok ()
  else .error (.UnknownError status)

/-- Modelled from the spec: the BrokerProperties record lives in
servicebus/brokeredmessage.rs, which is not under src/. Spec section 3 gives
MessageId (string, optional), SequenceNumber (integer, server-assigned,
optional) and LockToken (string, optional); only these three fields are read
by the operations in src/, so only they are modelled. -/
structure BrokerProperties where
  MessageId : Option (List Nat) := none
  SequenceNumber : Option Int := none
  LockToken : Option (List Nat) := none
deriving DecidableEq, Repr

/-- The option chain shared by both get_message_update_path functions
(queue.rs:245-250, subscription.rs:202-207): SequenceNumber.to_string()
or MessageId, then paired with the LockToken. -/
def messageIdAndLock (props : BrokerProperties) : Option (List Nat × List Nat) :=
  ((props.SequenceNumber.map intBytes).or props.MessageId).bind
    (fun id => props.LockToken.map (fun lock => (id, lock)))

/-- QueueClient::get_message_update_path (queue.rs:242-259) up to the path
string fed into URI assembly; the final and_then builds a hyper Uri from the
endpoint parts, which is the external HTTP layer (spec section 1 puts the
transport out of scope) and is not embedded. -/
def queue_update_path (queue_name : List Nat) (props : BrokerProperties) :
    Except AzureRequestError (List Nat) :=
  match (messageIdAndLock props).map
      (fun p => strBytes "/" ++ queue_name ++ strBytes "/messages/" ++
                p.1 ++ strBytes "/" ++ p.2) with
  | some path => .ok path
  | none => .error .LocalMessage

/-- SubscriptionClient::get_message_update_path (subscription.rs:199-223) up
to the path string fed into URI assembly; note the format string
(subscription.rs:210) starts with the topic name, without a leading slash. -/
def subscription_update_path (topic_name subscription_name : List Nat)
    (props : BrokerProperties) : Except AzureRequestError (List Nat) :=
  match (messageIdAndLock props).map
      (fun p => topic_name ++ strBytes "/subscriptions/" ++ subscription_name ++
                strBytes "/messages/" ++ p.1 ++ strBytes "/" ++ p.2) with
  | some path => .ok path
  | none => .error .LocalMessage

/-- refresh_sas, textually identical in QueueClient (queue.rs:261-278) and
SubscriptionClient (subscription.rs:225-242). State is the sas_info tuple
(token, stored expiry); the mutex and its poison recovery collapse to
explicit state passing. Regeneration uses Duration::from_secs(60 * 6) = 360
and stores the returned expiry unchanged. Returns the new state and the token
handed out; none models a panic inside generate_sas. The final
HeaderValue::from_str belongs to the external hyper layer. -/
def refresh_sas (mac : List Nat → List Nat → List Nat) (connection_string : List Nat)
    (sas_info : List Nat × Nat) (now : Nat) : Option ((List Nat × Nat) × List Nat) :=
  if now > sas_info.2 then
    match generate_sas mac connection_string now 360 with
    | none => none
    | some (key, expiry) => some ((key, expiry), key)
  else
    some (sas_info, sas_info.1)

/-- Model of String::replace: replace every non-overlapping occurrence of
pat, scanning left to right (used with pat "sb://" in queue.rs:69). -/
def replaceAll (pat rep : List Nat) : List Nat → List Nat
  | [] => []
  | b :: rest =>
    if pat ≠ [] ∧ pat.isPrefixOf (b :: rest) then
      rep ++ replaceAll pat rep (rest.drop (pat.length - 1))
    else
      b :: replaceAll pat rep rest
termination_by bs => bs.length
decreasing_by
  · simp only [List.length_drop, List.length_cons]; omega
  · simp only [List.length_cons]; omega

/-- The endpoint Option local of with_conn_and_queue (queue.rs:52-66): last
segment whose trimmed key is Endpoint wins, starting from None. -/
def endpointFromSegments (kvs : List (List Nat × List Nat)) : Option (List Nat) :=
  kvs.foldl (fun acc kv => if kv.1 = strBytes "Endpoint" then some kv.2 else acc) none

/-- The fields of QueueClient (queue.rs:42-47) built by the constructor;
endpoint is kept as the rewritten string handed to hyper Uri parsing. -/
structure QueueClientModel where
  endpoint : List Nat
  queue_name : List Nat
  connection_string : List Nat
  sas_info : List Nat × Nat
deriving DecidableEq, Repr

/-- Outcome of a constructor: a panic, an Err, or a built client. -/
inductive ConstrResult (α : Type) where
  | panicked
  | err
  | ok (a : α)
deriving DecidableEq, Repr

/-- QueueClient::with_conn_and_queue (queue.rs:50-80). The parse loop over
the connection string may panic at a char boundary; a missing Endpoint key
yields Err. The endpoint has every occurrence of sb:// replaced by https://
and is then parsed as a hyper Uri at queue.rs:71, with a failed parse
propagated as Err by the question-mark operator; the external parser is the
parameter uriOk, which tells whether a given string is an acceptable Uri.
sas_info stores expiry minus SAS_BUFFER_TIME = 15 (queue.rs:11, 78). -/
def with_conn_and_queue (uriOk : List Nat → Bool)
    (mac : List Nat → List Nat → List Nat)
    (conn queue : List Nat) (now : Nat) : ConstrResult QueueClientModel :=
  match parseSegments conn with
  | none => .panicked
  | some kvs =>
    match endpointFromSegments kvs with
    | none => .err
    | some e =>
      let endpoint := replaceAll (strBytes "sb://") (strBytes "https://") e
      if uriOk endpoint then
        match generate_sas mac conn now 360 with
        | none => .panicked
        | some (sas_key, expiry) =>
          .ok { endpoint := endpoint,
                queue_name := queue,
                connection_string := conn,
                sas_info := (sas_key, expiry - 15) }
      else .err

/-- Extracts the stored sas_info expiry of a successfully built client. -/
def constructedExpiry : ConstrResult QueueClientModel → Option Nat
  | .ok c => some c.sas_info.2
  | _ => none

/-- Extracts the stored endpoint string of a successfully built client. -/
def constructedEndpoint : ConstrResult QueueClientModel → Option (List Nat)
  | .ok c => some c.endpoint
  | _ => none

/-- A concrete stand-in for the external base64-of-HMAC function, used to
instantiate theorems at concrete inputs. -/
def macConst : List Nat → List Nat → List Nat := fun _ _ => strBytes "MACSIG"

/-- A concrete stand-in for the external Uri parser that accepts its input,
used to instantiate theorems at endpoints such as https://h/ that hyper
does accept. -/
def uriOkAll : List Nat → Bool := fun _ => true

/-- A complete concrete connection string. -/
def connFull : List Nat :=
  strBytes "Endpoint=sb://ns.servicebus.windows.net/;SharedAccessKeyName=policy;SharedAccessKey=secret"

/-- A small complete concrete connection string. -/
def connSmall : List Nat :=
  strBytes "Endpoint=sb://h/;SharedAccessKeyName=n;SharedAccessKey=k"

/-- A received message carrying SequenceNumber 42 and lock token abc. -/
def propsSeq42 : BrokerProperties :=
  { SequenceNumber := some 42, LockToken := some (strBytes "abc") }

/-- A received message with no SequenceNumber, MessageId m1, lock token abc. -/
def propsMsgM1 : BrokerProperties :=
  { MessageId := some (strBytes "m1"), LockToken := some (strBytes "abc") }

/-- A locally constructed message: no server identity, no lock token. -/
def propsLocal : BrokerProperties := {}

lemma trimBytes_nil : trimBytes [] = [] := rfl

lemma findByteIdx_eq_none {b : Nat} :
    ∀ {bs : List Nat}, b ∉ bs → findByteIdx b bs = none := by
  intro bs h
  induction bs with
  | nil => rfl
  | cons c rest ih =>
    simp only [List.mem_cons, not_or] at h
    simp only [findByteIdx]
    rw [if_neg (fun hc => h.1 hc.symm), ih h.2]
    rfl

lemma replaceAll_of_append (pat rep t : List Nat) (hp : pat ≠ []) :
    replaceAll pat rep (pat ++ t) = rep ++ replaceAll pat rep (t.drop 0) := by
  match pat, hp with
  | b :: ps, _ =>
    rw [List.cons_append]
    rw [replaceAll]
    rw [if_pos ⟨List.cons_ne_nil b ps, List.isPrefixOf_iff_prefix.mpr
          (by rw [← List.cons_append]; exact List.prefix_append _ _)⟩]
    simp only [List.length_cons, Nat.add_sub_cancel, List.drop_left, List.drop_zero]

/-- C4: interpret_results maps 200 and 201 to success, 400 to BadRequest,
401 to AuthorizationFailure, 403 to ResourceFailure, 410 to ResourceNotFound,
500 to InternalError, and every other status code to UnknownError carrying
that code. -/
theorem interpret_results_classification :
    interpret_results 200 = .ok () ∧ interpret_results 201 = .ok () ∧
    interpret_results 400 = .error .BadRequest ∧
    interpret_results 401 = .error .AuthorizationFailure ∧
    interpret_results 403 = .error .ResourceFailure ∧
    interpret_results 410 = .error .ResourceNotFound ∧
    interpret_results 500 = .error .InternalError ∧
    ∀ s : Nat, s ∉ ([200, 201, 400, 401, 403, 410, 500] : List Nat) →
      interpret_results s = .error (.UnknownError s) := by
  refine ⟨rfl, rfl, rfl, rfl, rfl, rfl, rfl, ?_⟩
  intro s hs
  simp only [List.mem_cons, List.not_mem_nil, or_false, not_or] at hs
  obtain ⟨h200, h201, h400, h401, h403, h410, h500⟩ := hs
  simp [interpret_results, h200, h201, h400, h401, h403, h410, h500]

/-- Witness for C4: the catch-all arm at the unused code 599. -/
theorem interpret_results_classification_witness :
    (599 : Nat) ∉ ([200, 201, 400, 401, 403, 410, 500] : List Nat) ∧
    interpret_results 599 = .error (.UnknownError 599) :=
  ⟨by decide, interpret_results_classification.2.2.2.2.2.2.2 599 (by decide)⟩

/-- C3: a message lacking a LockToken, or lacking both SequenceNumber and
MessageId, makes the shared lock-scoped address builder of both clients
return the LocalMessage error, so complete, abandon and renew (which
propagate it with the question-mark operator, queue.rs:203/215/236 and
subscription.rs:161/172/193) never construct a request address. -/
theorem lock_ops_local_message_on_unaddressable :
    ∀ (q t s : List Nat) (props : BrokerProperties),
      props.LockToken = none ∨
        (props.SequenceNumber = none ∧ props.MessageId = none) →
      queue_update_path q props = .error .LocalMessage ∧
      subscription_update_path t s props = .error .LocalMessage := by
  intro q t s props h
  have hm : messageIdAndLock props = none := by
    obtain ⟨mid, seq, lt⟩ := props
    rcases h with h | ⟨h1, h2⟩
    · cases seq <;> cases mid <;> simp_all [messageIdAndLock]
    · simp_all [messageIdAndLock]
  exact ⟨by simp [queue_update_path, hm], by simp [subscription_update_path, hm]⟩

/-- Witness for C3: a locally constructed message on both clients. -/
theorem lock_ops_local_message_on_unaddressable_witness :
    propsLocal.LockToken = none ∧
    queue_update_path (strBytes "orders") propsLocal = .error .LocalMessage ∧
    subscription_update_path (strBytes "mytopic") (strBytes "sub1") propsLocal =
      .error .LocalMessage :=
  ⟨rfl, lock_ops_local_message_on_unaddressable (strBytes "orders")
    (strBytes "mytopic") (strBytes "sub1") propsLocal (Or.inl rfl)⟩

/-- C5: the QueueClient lock-scoped path is /queue/messages/id/lockToken,
where id is the SequenceNumber when present and otherwise the MessageId;
instantiated at queue orders, SequenceNumber 42, lock abc it is
/orders/messages/42/abc, and with no SequenceNumber and MessageId m1 it is
/orders/messages/m1/abc. -/
theorem queue_update_path_id_selection :
    ∀ (q : List Nat) (props : BrokerProperties) (lock : List Nat),
      props.LockToken = some lock →
      (∀ n : Int, props.SequenceNumber = some n →
        queue_update_path q props =
          .ok (strBytes "/" ++ q ++ strBytes "/messages/" ++ intBytes n ++
               strBytes "/" ++ lock)) ∧
      (props.SequenceNumber = none → ∀ m : List Nat, props.MessageId = some m →
        queue_update_path q props =
          .ok (strBytes "/" ++ q ++ strBytes "/messages/" ++ m ++
               strBytes "/" ++ lock)) := by
  intro q props lock hl
  obtain ⟨mid, seq, lt⟩ := props
  constructor
  · intro n hn
    simp_all [queue_update_path, messageIdAndLock]
  · intro hn m hm
    simp_all [queue_update_path, messageIdAndLock]

/-- Witness for C5: the two concrete messages of the claim on queue orders. -/
theorem queue_update_path_id_selection_witness :
    propsSeq42.LockToken = some (strBytes "abc") ∧
    propsSeq42.SequenceNumber = some 42 ∧
    propsMsgM1.LockToken = some (strBytes "abc") ∧
    propsMsgM1.SequenceNumber = none ∧
    propsMsgM1.MessageId = some (strBytes "m1") ∧
    queue_update_path (strBytes "orders") propsSeq42 =
      .ok (strBytes "/orders/messages/42/abc") ∧
    queue_update_path (strBytes "orders") propsMsgM1 =
      .ok (strBytes "/orders/messages/m1/abc") := by
  refine ⟨rfl, rfl, rfl, rfl, rfl, ?_, ?_⟩
  · rw [(queue_update_path_id_selection (strBytes "orders") propsSeq42
      (strBytes "abc") rfl).1 42 rfl]
    decide
  · rw [(queue_update_path_id_selection (strBytes "orders") propsMsgM1
      (strBytes "abc") rfl).2 rfl (strBytes "m1") rfl]
    decide

/-- C6 counterexample: the subscription path built by the code for topic
mytopic, subscription sub1, SequenceNumber 42 and lock abc is
mytopic/subscriptions/sub1/messages/42/abc, which is not the
/mytopic/subscriptions/sub1/messages/42/abc claimed: the subscription format
string (subscription.rs:210) has no leading slash. -/
theorem subscription_update_path_no_leading_slash :
    subscription_update_path (strBytes "mytopic") (strBytes "sub1") propsSeq42 =
      .ok (strBytes "mytopic/subscriptions/sub1/messages/42/abc") ∧
    strBytes "mytopic/subscriptions/sub1/messages/42/abc" ≠
      strBytes "/mytopic/subscriptions/sub1/messages/42/abc" := by
  decide

/-- C6 amended: the SubscriptionClient lock-scoped path is
topic/subscriptions/subscription/messages/id/lockToken without a leading
slash, where id is the SequenceNumber when present, else the MessageId. -/
theorem subscription_update_path_id_selection :
    ∀ (t s : List Nat) (props : BrokerProperties) (lock : List Nat),
      props.LockToken = some lock →
      (∀ n : Int, props.SequenceNumber = some n →
        subscription_update_path t s props =
          .ok (t ++ strBytes "/subscriptions/" ++ s ++ strBytes "/messages/" ++
               intBytes n ++ strBytes "/" ++ lock)) ∧
      (props.SequenceNumber = none → ∀ m : List Nat, props.MessageId = some m →
        subscription_update_path t s props =
          .ok (t ++ strBytes "/subscriptions/" ++ s ++ strBytes "/messages/" ++
               m ++ strBytes "/" ++ lock)) := by
  intro t s props lock hl
  obtain ⟨mid, seq, lt⟩ := props
  constructor
  · intro n hn
    simp_all [subscription_update_path, messageIdAndLock]
  · intro hn m hm
    simp_all [subscription_update_path, messageIdAndLock]

/-- Witness for the amended C6: both id choices on topic mytopic. -/
theorem subscription_update_path_id_selection_witness :
    propsSeq42.LockToken = some (strBytes "abc") ∧
    propsMsgM1.LockToken = some (strBytes "abc") ∧
    subscription_update_path (strBytes "mytopic") (strBytes "sub1") propsSeq42 =
      .ok (strBytes "mytopic/subscriptions/sub1/messages/42/abc") ∧
    subscription_update_path (strBytes "mytopic") (strBytes "sub1") propsMsgM1 =
      .ok (strBytes "mytopic/subscriptions/sub1/messages/m1/abc") := by
  refine ⟨rfl, rfl, ?_, ?_⟩
  · rw [(subscription_update_path_id_selection (strBytes "mytopic")
      (strBytes "sub1") propsSeq42 (strBytes "abc") rfl).1 42 rfl]
    decide
  · rw [(subscription_update_path_id_selection (strBytes "mytopic")
      (strBytes "sub1") propsMsgM1 (strBytes "abc") rfl).2 rfl (strBytes "m1") rfl]
    decide

/-- C8: while the current time has not passed the stored expiry, refresh_sas
returns the cached token and leaves the stored credential unchanged, so two
calls within the window both return the identical token string and the
second call sees an unchanged credential. -/
theorem refresh_sas_idempotent_within_window :
    ∀ (mac : List Nat → List Nat → List Nat) (conn : List Nat)
      (st : List Nat × Nat) (now1 now2 : Nat),
      now1 ≤ st.2 → now2 ≤ st.2 →
      refresh_sas mac conn st now1 = some (st, st.1) ∧
      refresh_sas mac conn st now2 = some (st, st.1) := by
  intro mac conn st now1 now2 h1 h2
  constructor <;>
    · rw [refresh_sas, if_neg]
      omega

/-- Witness for C8: two in-window calls at times 50 and 99 against a
credential stored as valid until 100. -/
theorem refresh_sas_idempotent_within_window_witness :
    (50 ≤ (strBytes "tok", 100).2 ∧ 99 ≤ (strBytes "tok", 100).2) ∧
    refresh_sas macConst connSmall (strBytes "tok", 100) 50 =
      some ((strBytes "tok", 100), strBytes "tok") ∧
    refresh_sas macConst connSmall (strBytes "tok", 100) 99 =
      some ((strBytes "tok", 100), strBytes "tok") :=
  ⟨by decide, refresh_sas_idempotent_within_window macConst connSmall
    (strBytes "tok", 100) 50 99 (by decide) (by decide)⟩

/-- C1 is violated by the code: with_conn_and_queue stores the buffer-adjusted
expiry (here 101 + 360 - 15 = 446, queue.rs:78), but refresh_sas regenerating
at time 101 against a credential expired at 100 stores the raw signature
expiry 101 + 360 = 461 with no 15-second buffer subtracted (queue.rs:273,
subscription.rs:237), so after a refresh the cached expiry is not the true
expiry minus the buffer. -/
theorem refresh_sas_stores_unbuffered_expiry :
    constructedExpiry
      (with_conn_and_queue uriOkAll macConst connSmall (strBytes "q") 101) =
      some (101 + 360 - 15) ∧
    (refresh_sas macConst connSmall (strBytes "old", 100) 101).map
      (fun r => r.1.2) = some (101 + 360) ∧
    101 + 360 ≠ 101 + 360 - 15 := by
  decide

/-- C7 is violated by the code: on the connection string consisting of the
single two-byte character with UTF-8 bytes 195 169, generate_sas panics
(modelled as none) instead of returning a token pair, because the segment
has no equal sign, split_at(0) makes the whole segment the value, and
&value[1..] slices inside the multi-byte character. -/
theorem generate_sas_panics_on_multibyte_segment :
    generate_sas macConst [195, 169] 0 0 = none ∧
    strBytes "é" = [195, 169] := by
  decide

/-- C9 counterexample: in the connection string Endpoint=sb://x;Endpoint the
second segment has no equal sign; the claim says it is treated as the key
Endpoint with an empty value, which would reset the endpoint field to the
empty string, but the parse leaves the endpoint equal to sb://x. -/
theorem eq_free_segment_does_not_reset_field :
    (parseConnFields (strBytes "Endpoint=sb://x;Endpoint")).map
      (fun f => f.endpoint) = some (strBytes "sb://x") ∧
    strBytes "sb://x" ≠ strBytes "" := by
  decide

/-- C9 amended: a segment with no equal sign is split at index 0, so its key
is the empty string, never a recognized name, and the segment sets no field
(its value, the segment minus its first byte, is discarded). -/
theorem eq_free_segment_is_ignored :
    ∀ (seg : List Nat) (f : ConnFields) (kv : List Nat × List Nat),
      (61 : Nat) ∉ seg → procSegment seg = some kv →
      kv.1 = [] ∧ applySegment f kv = f := by
  intro seg f kv h61 hp
  rw [procSegment, findByteIdx_eq_none h61] at hp
  simp only [Option.getD_none, List.take_zero, trimBytes_nil, List.drop_zero] at hp
  obtain ⟨v2, _, hkv⟩ := Option.map_eq_some'.mp hp
  cases hkv
  refine ⟨rfl, ?_⟩
  rw [applySegment,
    if_neg (fun h => (by decide : ¬ ([] : List Nat) = strBytes "Endpoint") h),
    if_neg (fun h => (by decide : ¬ ([] : List Nat) = strBytes "SharedAccessKey") h),
    if_neg (fun h => (by decide : ¬ ([] : List Nat) = strBytes "SharedAccessKeyName") h)]

/-- Witness for the amended C9: the segment Endpoint with no equal sign
yields the empty key with value ndpoint and leaves the fields unchanged. -/
theorem eq_free_segment_is_ignored_witness :
    (61 : Nat) ∉ strBytes "Endpoint" ∧
    procSegment (strBytes "Endpoint") = some ([], strBytes "ndpoint") ∧
    (([], strBytes "ndpoint") : List Nat × List Nat).1 = [] ∧
    applySegment {} ([], strBytes "ndpoint") = ({} : ConnFields) := by
  refine ⟨by decide, by decide, ?_, ?_⟩
  · exact (eq_free_segment_is_ignored (strBytes "Endpoint") {}
      ([], strBytes "ndpoint") (by decide) (by decide)).1
  · exact (eq_free_segment_is_ignored (strBytes "Endpoint") {}
      ([], strBytes "ndpoint") (by decide) (by decide)).2

/-- C2: for every connection string whose parse succeeds with non-empty
Endpoint, SharedAccessKeyName and SharedAccessKey and every duration,
generate_sas returns exactly the token
SharedAccessSignature sig=S&se=E&skn=K&sr=U, where U is the
userinfo-percent-encoded endpoint, E the decimal of now + duration in
seconds, S the custom-percent-encoded signature over U newline E, and K the
key name; the returned expiry equals that same se value now + duration. -/
theorem generate_sas_token_format :
    ∀ (mac : List Nat → List Nat → List Nat) (conn : List Nat) (now dur : Nat)
      (f : ConnFields),
      parseConnFields conn = some f →
      f.endpoint ≠ [] → f.key ≠ [] → f.name ≠ [] →
      generate_sas mac conn now dur =
        some (strBytes "SharedAccessSignature sig=" ++
              percentEncode customSet
                (mac f.key (percentEncode userinfoSet f.endpoint ++ [10] ++
                  natBytes (now + dur))) ++
              strBytes "&se=" ++ natBytes (now + dur) ++
              strBytes "&skn=" ++ f.name ++
              strBytes "&sr=" ++ percentEncode userinfoSet f.endpoint,
              now + dur) := by
  intro mac conn now dur f hf _ _ _
  rw [generate_sas, hf]

/-- Witness for C2: a full connection string at time 1000 for 360 seconds. -/
theorem generate_sas_token_format_witness :
    parseConnFields connFull =
      some ⟨strBytes "sb://ns.servicebus.windows.net/", strBytes "secret",
            strBytes "policy"⟩ ∧
    strBytes "sb://ns.servicebus.windows.net/" ≠ [] ∧
    strBytes "secret" ≠ [] ∧ strBytes "policy" ≠ [] ∧
    generate_sas macConst connFull 1000 360 =
      some (strBytes "SharedAccessSignature sig=" ++
            percentEncode customSet
              (macConst (strBytes "secret")
                (percentEncode userinfoSet (strBytes "sb://ns.servicebus.windows.net/") ++
                 [10] ++ natBytes 1360)) ++
            strBytes "&se=" ++ natBytes 1360 ++
            strBytes "&skn=" ++ strBytes "policy" ++
            strBytes "&sr=" ++
              percentEncode userinfoSet (strBytes "sb://ns.servicebus.windows.net/"),
            1360) :=
  ⟨by decide, by decide, by decide, by decide,
   generate_sas_token_format macConst connFull 1000 360
     ⟨strBytes "sb://ns.servicebus.windows.net/", strBytes "secret",
      strBytes "policy"⟩ (by decide) (by decide) (by decide) (by decide)⟩

/-- C10 counterexample: the connection string of two bytes 195 169 (the
character with no equal sign) contains no Endpoint key=value pair, yet
with_conn_and_queue panics in the parse loop instead of returning an
error. -/
theorem with_conn_and_queue_panics_without_error :
    with_conn_and_queue uriOkAll macConst [195, 169] (strBytes "q") 0 = .panicked ∧
    (ConstrResult.panicked : ConstrResult QueueClientModel) ≠ .err ∧
    strBytes "é" = [195, 169] := by
  decide

/-- C10 amended: whenever the connection-string parse completes without a
panic, with_conn_and_queue returns an error if no segment set the Endpoint
field; and when the Endpoint value starts with sb:// and the external Uri
parser accepts the sb-to-https rewritten endpoint, it builds a client whose
stored endpoint string starts with https://. -/
theorem with_conn_and_queue_endpoint_behavior :
    ∀ (uriOk : List Nat → Bool) (mac : List Nat → List Nat → List Nat)
      (conn queue : List Nat) (now : Nat)
      (kvs : List (List Nat × List Nat)),
      parseSegments conn = some kvs →
      (endpointFromSegments kvs = none →
        with_conn_and_queue uriOk mac conn queue now = .err) ∧
      (∀ e rest, endpointFromSegments kvs = some e →
        e = strBytes "sb://" ++ rest →
        uriOk (replaceAll (strBytes "sb://") (strBytes "https://") e) = true →
        constructedEndpoint (with_conn_and_queue uriOk mac conn queue now) =
          some (strBytes "https://" ++
                replaceAll (strBytes "sb://") (strBytes "https://") (rest.drop 0))) := by
  intro uriOk mac conn queue now kvs hkvs
  constructor
  · intro hnone
    rw [with_conn_and_queue, hkvs]
    simp only [hnone]
  · intro e rest he hrest huri
    have hpc : parseConnFields conn = some (kvs.foldl applySegment {}) := by
      rw [parseConnFields, hkvs]; rfl
    rw [with_conn_and_queue, hkvs]
    simp only [he, huri, if_true, generate_sas, hpc]
    rw [constructedEndpoint, hrest,
      replaceAll_of_append _ _ _ (by decide)]

/-- Witness for the amended C10: a string without an Endpoint pair errors,
and connSmall, whose rewritten endpoint https://h/ the parser accepts,
yields a client with an https endpoint. -/
theorem with_conn_and_queue_endpoint_behavior_witness :
    parseSegments (strBytes "SharedAccessKey=k") =
      some [(strBytes "SharedAccessKey", strBytes "k")] ∧
    endpointFromSegments [(strBytes "SharedAccessKey", strBytes "k")] = none ∧
    with_conn_and_queue uriOkAll macConst (strBytes "SharedAccessKey=k")
      (strBytes "q") 0 = .err ∧
    uriOkAll (replaceAll (strBytes "sb://") (strBytes "https://")
      (strBytes "sb://h/")) = true ∧
    constructedEndpoint
      (with_conn_and_queue uriOkAll macConst connSmall (strBytes "q") 101) =
      some (strBytes "https://" ++
            replaceAll (strBytes "sb://") (strBytes "https://")
              ((strBytes "h/").drop 0)) := by
  refine ⟨by decide, by decide, ?_, by decide, ?_⟩
  · exact (with_conn_and_queue_endpoint_behavior uriOkAll macConst
      (strBytes "SharedAccessKey=k") (strBytes "q") 0
      [(strBytes "SharedAccessKey", strBytes "k")] (by decide)).1 (by decide)
  · exact (with_conn_and_queue_endpoint_behavior uriOkAll macConst connSmall
      (strBytes "q") 101
      [(strBytes "Endpoint", strBytes "sb://h/"),
       (strBytes "SharedAccessKeyName", strBytes "n"),
       (strBytes "SharedAccessKey", strBytes "k")] (by decide)).2
      (strBytes "sb://h/") (strBytes "h/") (by decide) (by decide) (by decide)

end ServiceBus
